import Mathlib

/-!
Verification of the Famly check-in/check-out integration
(`custom_components/ha_famly_checkinout`).

The development shallowly embeds the status-resolution logic of
`api.py` (class `FamlyApi`: `authenticate` and `get_child_status`) and the
rendering properties of `sensor.py` / `binary_sensor.py`.

Modelling conventions:
* JSON values (the bodies returned by `await resp.json()`) are the
  inductive `Json`; `Json.null` doubles as Python `None` (which is what
  `json.loads` produces for JSON `null`, and what `dict.get` returns for a
  missing key).
* Python exceptions are modelled with `Except Unit`: `.error ()` means an
  exception was raised at that point (e.g. `AttributeError` from calling
  `.get` on a non-dict value, or from `.lower()` on a non-string).
* `datetime.fromisoformat` is a Python standard-library routine, not code
  of this repository.  It is abstracted as a parameter
  `pi : String → Option Int` (`none` = the call raised, which the source's
  `parse_iso` catches and turns into `None`); `Int` stands for the
  timeline order of `datetime` values.  All theorems quantify over `pi`.
* The two HTTP calls of `get_child_status` (the calendar query, possibly
  retried, and `authenticate`) are driven by response oracles
  `cals : Nat → CalResp` and `auths : Nat → AuthResp` giving the response
  to the i-th such request of the call.
-/

/-- `const.py`: `STATE_AT_CHILDCARE = "At childcare"`. -/
def STATE_AT_CHILDCARE : String := "At childcare"

/-- `const.py`: `STATE_OUTSIDE_CHILDCARE = "Outside childcare"`. -/
def STATE_OUTSIDE_CHILDCARE : String := "Outside childcare"

/-- A parsed JSON value; `null` also stands for Python `None`. -/
inductive Json where
  | null
  | bool (b : Bool)
  | num (n : Int)
  | str (s : String)
  | arr (items : List Json)
  | obj (fields : List (String × Json))

/-- Python truthiness (`bool(x)`) on JSON values: `None`, `False`, `0`,
`""`, `[]` and `{}` are falsy, everything else truthy. -/
def truthy : Json → Bool
  | .null => false
  | .bool b => b
  | .num n => n != 0
  | .str s => s != ""
  | .arr items => !items.isEmpty
  | .obj fields => !fields.isEmpty

/-- Lookup of a key in a JSON object's field list (Python dict lookup;
parsed JSON objects have distinct keys, first match returned). -/
def fieldGet : List (String × Json) → String → Option Json
  | [], _ => none
  | (k, v) :: rest, key => if k = key then some v else fieldGet rest key

/-- Python `j.get(k, d) if isinstance(j, dict) else d`: total, never raises. -/
def pyGetD (j : Json) (k : String) (d : Json) : Json :=
  match j with
  | .obj fs => (fieldGet fs k).getD d
  | _ => d

/-- Python `j.get(k)`: returns `None` for a missing key, raises
`AttributeError` when `j` is not a dict. -/
def pyGet (j : Json) (k : String) : Except Unit Json :=
  match j with
  | .obj fs => .ok ((fieldGet fs k).getD .null)
  | _ => .error ()

/-- Python `j.get(k, d)` without an isinstance guard: default for a missing
key, raises when `j` is not a dict. -/
def pyGetDE (j : Json) (k : String) (d : Json) : Except Unit Json :=
  match j with
  | .obj fs => .ok ((fieldGet fs k).getD d)
  | _ => .error ()

/-- Python's short-circuiting `or` over a chain of effectful operands:
evaluates left to right, stops at the first truthy value, and otherwise
returns the last value (falsy).  An empty chain is `None`. -/
def pyOrM : List (Except Unit Json) → Except Unit Json
  | [] => .ok .null
  | [x] => x
  | x :: y :: rest => do
    let v ← x
    if truthy v then pure v else pyOrM (y :: rest)

/-- Characters of Python `s.lower()` / `s.upper()` (ASCII, which is all the
source's phrases use). -/
def lowerStr (s : String) : String := String.mk (s.data.map Char.toLower)

/-- Python `s.upper()` on ASCII strings. -/
def upperStr (s : String) : String := String.mk (s.data.map Char.toUpper)

/-- Python substring test `pat in s` over the character lists. -/
def strContains (s pat : String) : Bool := go pat.data s.data
where go (p : List Char) : List Char → Bool
  | [] => p.isPrefixOf []
  | c :: cs => p.isPrefixOf (c :: cs) || go p cs

/-- Python `ts.replace("Z", "+00:00")` (the pattern is the single
character `Z`, so this replaces every occurrence of `Z`). -/
def replaceZ (s : String) : String := String.mk (go s.data)
where go : List Char → List Char
  | [] => []
  | c :: cs =>
    if c = 'Z' then '+' :: '0' :: '0' :: ':' :: '0' :: '0' :: go cs
    else c :: go cs

/-- `api.py` lines 117-123, `parse_iso(ts)`: `None` for a falsy `ts`;
otherwise `ts.replace("Z", "+00:00")` is fed to `datetime.fromisoformat`
with every exception caught (a truthy non-string `ts` raises
`AttributeError` at `.replace`, also caught).  `pi` abstracts
`datetime.fromisoformat` wrapped in that `try`. -/
def parse_iso (pi : String → Option Int) (ts : Json) : Option Int :=
  if truthy ts then
    match ts with
    | .str s => pi (replaceZ s)
    | _ => none
  else none

/-- `api.py` lines 125-133, `normalize_type(t)`: `None` for falsy `t`;
substring tests on `t.lower()` otherwise.  `t.lower()` raises
`AttributeError` when `t` is truthy but not a string (no local `try`). -/
def normalize_type (t : Json) : Except Unit (Option String) :=
  if truthy t then
    match t with
    | .str s =>
      let tl := lowerStr s
      if strContains tl "checkin" || strContains tl "check_in" then .ok (some "checkin")
      else if strContains tl "checkout" || strContains tl "check_out" then .ok (some "checkout")
      else .ok none
    | _ => .error ()
  else .ok none

/-- `api.py` lines 136-154, `event_kind(ev)`: `embed.type` first
(`CHECK_IN`/`CHECK_OUT`, case-insensitive), then the short-circuiting
chain `originator.type or originator.__typename or ev.type or
ev.eventType` through `normalize_type`, then known title phrases.
Raises when a consulted container is not a dict. -/
def event_kind (ev : Json) : Except Unit (Option String) := do
  let embed := pyGetD ev "embed" (Json.obj [])
  let et ← pyGet embed "type"
  match et with
  | .str s =>
    if upperStr s = "CHECK_OUT" then pure (some "checkout")
    else if upperStr s = "CHECK_IN" then pure (some "checkin")
    else event_kind_rest ev
  | _ => event_kind_rest ev
where event_kind_rest (ev : Json) : Except Unit (Option String) := do
  let origin := pyGetD ev "originator" (Json.obj [])
  let t ← pyOrM [pyGet origin "type", pyGet origin "__typename",
                 pyGet ev "type", pyGet ev "eventType"]
  let k ← normalize_type t
  match k with
  | some _ => pure k
  | none =>
    let title ← pyGet ev "title"
    match title with
    | .str s =>
      let tl := lowerStr s
      if strContains tl "sjekket ut" || strContains tl "checked out" then pure (some "checkout")
      else if strContains tl "sjekket inn" || strContains tl "checked in" then pure (some "checkin")
      else pure k
    | _ => pure k

/-- `api.py` lines 157-166, `event_timestamp(ev)`: the short-circuiting
chain `ev.from or originator.occurredAt or ev.occurredAt or
originator.timestamp or ev.timestamp`, fed to `parse_iso`. -/
def event_timestamp (pi : String → Option Int) (ev : Json) : Except Unit (Option Int) := do
  let origin := pyGetD ev "originator" (Json.obj [])
  let ts ← pyOrM [pyGet ev "from", pyGet origin "occurredAt",
                  pyGet ev "occurredAt", pyGet origin "timestamp",
                  pyGet ev "timestamp"]
  pure (parse_iso pi ts)

/-- The `days` loop of `collect_events` (lines 176-181): for each day
bucket, `day.get("events", [])` (raising when `day` is not a dict), and the
bucket's events are appended when that value is a list. -/
def collectDays : List Json → Except Unit (List Json)
  | [] => .ok []
  | day :: ds => do
    let e2 ← pyGetDE day "events" (Json.arr [])
    let c := match e2 with
      | .arr xs => xs
      | _ => []
    let rest ← collectDays ds
    pure (c ++ rest)

mutual
/-- `api.py` lines 171-186, `collect_events(container)`: a dict
contributes its `events` list (when it is a list) followed by the events
of each bucket of its `days` list; a list is traversed recursively; other
values contribute nothing. -/
def collect_events : Json → Except Unit (List Json)
  | .obj fs =>
    let c1 := match (fieldGet fs "events").getD .null with
      | .arr xs => xs
      | _ => []
    (match (fieldGet fs "days").getD .null with
      | .arr ds =>
        match collectDays ds with
        | .ok c2 => .ok (c1 ++ c2)
        | .error e => .error e
      | _ => .ok c1)
  | .arr xs => collectList xs
  | _ => .ok []

/-- The `for item in container: collect_events(item)` loop of lines 182-184. -/
def collectList : List Json → Except Unit (List Json)
  | [] => .ok []
  | x :: xs => do
    let a ← collect_events x
    let b ← collectList xs
    pure (a ++ b)
end

/-- One iteration of the loop of `api.py` lines 190-201 over the state
`(latest_time, latest_kind)`: events without a determinable kind are
skipped; a kind-bearing event without timestamp sets `latest_kind` only
while `latest_time is None`; a timestamped event replaces the state
exactly when `dt > latest_time` (strict). -/
def stepEvent (pi : String → Option Int) (st : Option Int × Option String)
    (ev : Json) : Except Unit (Option Int × Option String) := do
  let kOpt ← event_kind ev
  match kOpt with
  | none => pure st
  | some kind =>
    let dtOpt ← event_timestamp pi ev
    match dtOpt with
    | none =>
      match st.1 with
      | none => pure (none, some kind)
      | some _ => pure st
    | some dt =>
      match st.1 with
      | none => pure (some dt, some kind)
      | some lt => if lt < dt then pure (some dt, some kind) else pure st

/-- The loop of lines 188-201 followed by the final decision of lines
220-222: fold `stepEvent` from `(None, None)` over the candidates, then
`"At childcare"` iff `latest_kind == "checkin"`. -/
def resolve_candidates (pi : String → Option Int) (cands : List Json) :
    Except Unit String := do
  let st ← cands.foldlM (stepEvent pi) ((none : Option Int), (none : Option String))
  pure (if st.2 = some "checkin" then STATE_AT_CHILDCARE else STATE_OUTSIDE_CHILDCARE)

/-- Lines 168-222 on a truthy response body: flatten, fold, decide. -/
def resolve_data (pi : String → Option Int) (data : Json) : Except Unit String := do
  let cands ← collect_events data
  resolve_candidates pi cands

/-- Outcome of a `get_child_status` call as seen by its caller. -/
inductive CallResult where
  | value (s : String)
  | failure
  | raised
deriving DecidableEq

/-- Lines 113-222 of `get_child_status`, everything after the response
body `data` is in hand (inside the outer `try`): a falsy body returns
`"Outside childcare"` at once; otherwise the parse runs and an exception
in it is caught by the outer `except Exception` and yields `None`
(`CallResult.failure`). -/
def parsePhase (pi : String → Option Int) (data : Json) : CallResult :=
  if truthy data then
    match resolve_data pi data with
    | .ok s => .value s
    | .error _ => .failure
  else .value STATE_OUTSIDE_CHILDCARE

/-- A provider response to one HTTP request: either the transport raised
`aiohttp.ClientError`, or a status code and a parsed JSON body arrived. -/
inductive AuthResp where
  | netErr
  | ok (status : Nat) (body : Json)

/-- One response of the calendar endpoint. -/
inductive CalResp where
  | netErr
  | ok (status : Nat) (body : Json)

/-- Outcome of an `authenticate()` call: `True` with a stored token,
`False`, or an uncaught exception. -/
inductive AuthOutcome where
  | success (token : Json)
  | failure
  | raised

/-- Lines 57-58 of `authenticate`:
`data.get("data", {}).get("me", {}).get("authenticateWithPassword", {}).get("accessToken")`.
Each `.get` raises `AttributeError` when its receiver is not a dict —
in particular when an intermediate field is explicitly `null`. -/
def authChain (body : Json) : Except Unit Json := do
  let d1 ← pyGetDE body "data" (Json.obj [])
  let d2 ← pyGetDE d1 "me" (Json.obj [])
  let a3 ← pyGetDE d2 "authenticateWithPassword" (Json.obj [])
  pyGetDE a3 "accessToken" Json.null

/-- `api.py` lines 38-66, `authenticate()`: transport errors and
`raise_for_status` (status ≥ 400) raise `aiohttp.ClientError`, which the
`except aiohttp.ClientError` clause turns into `False`; then the token is
extracted by `authChain` — an exception there is NOT a `ClientError` and
propagates (`raised`); a falsy token gives `False`, a truthy one is stored
and gives `True`. -/
def authenticate : AuthResp → AuthOutcome
  | .netErr => .failure
  | .ok status body =>
    if 400 ≤ status then .failure
    else
      match authChain body with
      | .error _ => .raised
      | .ok tok => if truthy tok then .success tok else .failure

/-- Python truthiness of `self._access_token : Optional[str]`. -/
def tokenTruthy : Option String → Bool
  | none => false
  | some s => s != ""

/-- `api.py` lines 99-226: the `try` block of `get_child_status`, entered
with a token in hand.  `aUsed` auth calls were made before it.  Returns
the call outcome, the total number of `authenticate()` calls, and the
number of calendar queries issued.  A first response of exactly 401
triggers one re-authentication (whose own exception is caught here, since
this is inside the `try`) and, on success, one retried query; every other
failure path is absorbed to `None` by the outer `except Exception`. -/
def runQueryPhase (pi : String → Option Int) (auths : Nat → AuthResp)
    (cals : Nat → CalResp) (aUsed : Nat) : CallResult × Nat × Nat :=
  match cals 0 with
  | .netErr => (.failure, aUsed, 1)
  | .ok status body =>
    if status = 401 then
      match authenticate (auths aUsed) with
      | .success _ =>
        (match cals 1 with
          | .netErr => (.failure, aUsed + 1, 2)
          | .ok s2 b2 =>
            if 400 ≤ s2 then (.failure, aUsed + 1, 2)
            else (parsePhase pi b2, aUsed + 1, 2))
      | .failure => (.failure, aUsed + 1, 1)
      | .raised => (.failure, aUsed + 1, 1)
    else if 400 ≤ status then (.failure, aUsed, 1)
    else (parsePhase pi body, aUsed, 1)

/-- `api.py` lines 90-226, `get_child_status`: line 92
(`if not self._access_token and not await self.authenticate(): return None`)
runs BEFORE the `try` block, so an exception raised by that initial
`authenticate()` propagates out of `get_child_status`. -/
def get_child_status (pi : String → Option Int) (token : Option String)
    (auths : Nat → AuthResp) (cals : Nat → CalResp) : CallResult × Nat × Nat :=
  if tokenTruthy token then runQueryPhase pi auths cals 0
  else
    match authenticate (auths 0) with
    | .success _ => runQueryPhase pi auths cals 1
    | .failure => (.failure, 1, 0)
    | .raised => (.raised, 1, 0)

/-- `sensor.py` lines 80-83, `ChildcareStatusSensor.state`:
`self.coordinator.data.get(self._child_id) or STATE_OUTSIDE_CHILDCARE`
(`v` is the stored poll result for the child, `none` when the poll failed
or the child is missing from the mapping). -/
def sensor_state (v : Option String) : String :=
  match v with
  | some s => if s = "" then STATE_OUTSIDE_CHILDCARE else s
  | none => STATE_OUTSIDE_CHILDCARE

/-- `binary_sensor.py` lines 87-91, `ChildcarePresenceBinarySensor.is_on`:
`self.coordinator.data.get(self._child_id) == STATE_AT_CHILDCARE`. -/
def binary_is_on (v : Option String) : Bool :=
  v = some STATE_AT_CHILDCARE

/-! ## Evaluation and loop lemmas -/

/-- An event whose kind determination completes with no kind leaves the
loop state untouched (`if not kind: continue`). -/
theorem stepEvent_none (pi : String → Option Int) (ev : Json)
    (st : Option Int × Option String) (h : event_kind ev = .ok none) :
    stepEvent pi st ev = .ok st := by
  simp [stepEvent, h, Bind.bind, Except.bind, Pure.pure, Except.pure]

/-- Removing a no-kind event from anywhere in the candidate list does not
change the fold. -/
theorem foldlM_stepEvent_skip (pi : String → Option Int) (ev : Json)
    (h : event_kind ev = .ok none) (l1 l2 : List Json) :
    ∀ init, (l1 ++ ev :: l2).foldlM (stepEvent pi) init =
      (l1 ++ l2).foldlM (stepEvent pi) init := by
  induction l1 with
  | nil =>
    intro init
    simp [List.foldlM_cons, stepEvent_none pi ev init h, Bind.bind, Except.bind]
  | cons a l1 ih =>
    intro init
    simp only [List.cons_append, List.foldlM_cons]
    cases hs : stepEvent pi init a with
    | error e => simp [Bind.bind, Except.bind]
    | ok s => simp [Bind.bind, Except.bind, ih s]

/-- A list of events that all fail kind determination folds to the
initial state. -/
theorem foldlM_all_skipped (pi : String → Option Int) (cands : List Json)
    (hk : ∀ ev ∈ cands, event_kind ev = .ok none)
    (st : Option Int × Option String) :
    cands.foldlM (stepEvent pi) st = .ok st := by
  induction cands generalizing st with
  | nil => rfl
  | cons a l ih =>
    have ha : event_kind a = .ok none := hk a (by simp)
    simp only [List.foldlM_cons, stepEvent_none pi a st ha]
    simp only [Bind.bind, Except.bind]
    exact ih (fun ev hev => hk ev (by simp [hev])) st

/-! ## Claims -/

/-- C9: a child whose poll result is absent (`get_child_status` returned
`None`) renders exactly like a confirmed absence: the sensor's `state` is
`"Outside childcare"` and the binary sensor's `is_on` is `False`, the
same values as for a child whose stored result is
`"Outside childcare"`. -/
theorem c9_failed_poll_renders_as_absence :
    sensor_state none = STATE_OUTSIDE_CHILDCARE ∧
    binary_is_on none = false ∧
    sensor_state none = sensor_state (some STATE_OUTSIDE_CHILDCARE) ∧
    binary_is_on none = binary_is_on (some STATE_OUTSIDE_CHILDCARE) := by
  decide

/-- C4: a response nesting a list of events `E` under
`days[].events[]` parses to the same presence state as a response
carrying `E` as a flat top-level `events[]` list. -/
theorem c4_nested_days_equals_flat (pi : String → Option Int) (E : List Json) :
    parsePhase pi (Json.obj [("days", Json.arr [Json.obj [("events", Json.arr E)]])]) =
    parsePhase pi (Json.obj [("events", Json.arr E)]) := by
  have h2 : collect_events
      (Json.obj [("days", Json.arr [Json.obj [("events", Json.arr E)]])]) = .ok E := by
    simp [collect_events, collectDays, pyGetDE, fieldGet,
      Bind.bind, Except.bind, Pure.pure, Except.pure]
  have h1 : collect_events (Json.obj [("events", Json.arr E)]) = .ok E := by
    simp [collect_events, fieldGet]
  simp [parsePhase, truthy, resolve_data, h1, h2, Bind.bind, Except.bind]

/-- C7: an event whose kind cannot be determined (the kind resolution
completes and yields none) is skipped entirely: it leaves the loop state
unchanged, and removing it from any position of the candidate list leaves
the resolved status identical — whatever timestamp it carries is never
even computed. -/
theorem c7_undetermined_events_skipped (pi : String → Option Int) (ev : Json)
    (h : event_kind ev = .ok none) :
    (∀ st, stepEvent pi st ev = .ok st) ∧
    (∀ l1 l2, resolve_candidates pi (l1 ++ ev :: l2) =
      resolve_candidates pi (l1 ++ l2)) := by
  refine ⟨fun st => stepEvent_none pi ev st h, fun l1 l2 => ?_⟩
  unfold resolve_candidates
  rw [foldlM_stepEvent_skip pi ev h l1 l2]

/-- C7 witness: a titled event with no recognizable kind but the largest
timestamp is skipped: with it or without it, the single check-in event
decides. -/
theorem c7_witness :
    event_kind (Json.obj [("title", Json.str "lunch"), ("from", Json.str "9")]) = .ok none ∧
    resolve_candidates (fun s => if s = "9" then some 9 else some 1)
      [Json.obj [("embed", Json.obj [("type", Json.str "CHECK_IN")]), ("from", Json.str "1")],
       Json.obj [("title", Json.str "lunch"), ("from", Json.str "9")]] =
    resolve_candidates (fun s => if s = "9" then some 9 else some 1)
      [Json.obj [("embed", Json.obj [("type", Json.str "CHECK_IN")]), ("from", Json.str "1")]] := by
  refine ⟨rfl, ?_⟩
  exact (c7_undetermined_events_skipped (fun s => if s = "9" then some 9 else some 1)
    (Json.obj [("title", Json.str "lunch"), ("from", Json.str "9")]) rfl).2
    [Json.obj [("embed", Json.obj [("type", Json.str "CHECK_IN")]), ("from", Json.str "1")]] []

/-- A flat `events` response resolves exactly as its candidate list. -/
theorem parsePhase_flat (pi : String → Option Int) (l : List Json) :
    parsePhase pi (Json.obj [("events", Json.arr l)]) =
      (match resolve_candidates pi l with
        | .ok s => .value s
        | .error _ => .failure) := rfl

/-- Resolution of a two-event candidate list with known kinds and
timestamps: the second event takes over exactly when its timestamp is
strictly larger. -/
theorem resolve_two (pi : String → Option Int) (a b : Json) (ka kb : String)
    (ta tb : Int)
    (ha : event_kind a = .ok (some ka)) (hta : event_timestamp pi a = .ok (some ta))
    (hb : event_kind b = .ok (some kb)) (htb : event_timestamp pi b = .ok (some tb)) :
    resolve_candidates pi [a, b] =
      .ok (if ta < tb then
            (if kb = "checkin" then STATE_AT_CHILDCARE else STATE_OUTSIDE_CHILDCARE)
           else
            (if ka = "checkin" then STATE_AT_CHILDCARE else STATE_OUTSIDE_CHILDCARE)) := by
  unfold resolve_candidates
  simp only [List.foldlM_cons, List.foldlM_nil]
  simp only [stepEvent, ha, hta, hb, htb, Bind.bind, Except.bind, Pure.pure, Except.pure]
  by_cases h : ta < tb
  · simp [h]
  · simp [h]

/-- C1: for a same-day list of exactly one check-in event (timestamp `T1`)
and one check-out event (timestamp `T2`), in either order, the kind of the
maximum-timestamp event alone decides: `T1 < T2` gives
`"Outside childcare"` and `T2 < T1` gives `"At childcare"`. -/
theorem c1_latest_timestamp_kind_decides (pi : String → Option Int)
    (a b : Json) (T1 T2 : Int)
    (ha : event_kind a = .ok (some "checkin")) (hta : event_timestamp pi a = .ok (some T1))
    (hb : event_kind b = .ok (some "checkout")) (htb : event_timestamp pi b = .ok (some T2)) :
    (T1 < T2 →
      parsePhase pi (Json.obj [("events", Json.arr [a, b])]) = .value STATE_OUTSIDE_CHILDCARE ∧
      parsePhase pi (Json.obj [("events", Json.arr [b, a])]) = .value STATE_OUTSIDE_CHILDCARE) ∧
    (T2 < T1 →
      parsePhase pi (Json.obj [("events", Json.arr [a, b])]) = .value STATE_AT_CHILDCARE ∧
      parsePhase pi (Json.obj [("events", Json.arr [b, a])]) = .value STATE_AT_CHILDCARE) := by
  constructor
  · intro h
    have h2 : ¬ T2 < T1 := not_lt.mpr (le_of_lt h)
    constructor
    · rw [parsePhase_flat, resolve_two pi a b "checkin" "checkout" T1 T2 ha hta hb htb]
      simp [h]
    · rw [parsePhase_flat, resolve_two pi b a "checkout" "checkin" T2 T1 hb htb ha hta]
      simp [h2]
  · intro h
    have h2 : ¬ T1 < T2 := not_lt.mpr (le_of_lt h)
    constructor
    · rw [parsePhase_flat, resolve_two pi a b "checkin" "checkout" T1 T2 ha hta hb htb]
      simp [h2]
    · rw [parsePhase_flat, resolve_two pi b a "checkout" "checkin" T2 T1 hb htb ha hta]
      simp [h]

/-- C1 witness: a check-in at 1 and a check-out at 2, in both orders,
resolve to "Outside childcare". -/
theorem c1_witness :
    parsePhase (fun s => if s = "2" then some 2 else if s = "1" then some 1 else none)
      (Json.obj [("events", Json.arr
        [Json.obj [("embed", Json.obj [("type", Json.str "CHECK_IN")]), ("from", Json.str "1")],
         Json.obj [("embed", Json.obj [("type", Json.str "CHECK_OUT")]), ("from", Json.str "2")]])]) =
      .value STATE_OUTSIDE_CHILDCARE :=
  ((c1_latest_timestamp_kind_decides
      (fun s => if s = "2" then some 2 else if s = "1" then some 1 else none)
      (Json.obj [("embed", Json.obj [("type", Json.str "CHECK_IN")]), ("from", Json.str "1")])
      (Json.obj [("embed", Json.obj [("type", Json.str "CHECK_OUT")]), ("from", Json.str "2")])
      1 2 rfl rfl rfl rfl).1 (by decide)).1

/-- C10: the comparison `dt > latest_time` is strict, so an event whose
timestamp merely equals the current latest never replaces it; for two
determinable events sharing one timestamp, the one earliest in the
flattened order decides the result. -/
theorem c10_equal_timestamp_first_wins (pi : String → Option Int) :
    (∀ ev k2 t0 k0, event_kind ev = .ok (some k2) →
      event_timestamp pi ev = .ok (some t0) →
      stepEvent pi (some t0, k0) ev = .ok (some t0, k0)) ∧
    (∀ a b ka kb T, event_kind a = .ok (some ka) → event_timestamp pi a = .ok (some T) →
      event_kind b = .ok (some kb) → event_timestamp pi b = .ok (some T) →
      resolve_candidates pi [a, b] =
        .ok (if ka = "checkin" then STATE_AT_CHILDCARE else STATE_OUTSIDE_CHILDCARE)) := by
  constructor
  · intro ev k2 t0 k0 hk ht
    simp [stepEvent, hk, ht, Bind.bind, Except.bind, Pure.pure, Except.pure]
  · intro a b ka kb T hka hta hkb htb
    rw [resolve_two pi a b ka kb T T hka hta hkb htb]
    simp

/-- C10 witness: a check-in and a check-out both stamped 1; the check-in,
first in order, wins. -/
theorem c10_witness :
    resolve_candidates (fun _ => some 1)
      [Json.obj [("embed", Json.obj [("type", Json.str "CHECK_IN")]), ("from", Json.str "1")],
       Json.obj [("embed", Json.obj [("type", Json.str "CHECK_OUT")]), ("from", Json.str "1")]] =
      .ok STATE_AT_CHILDCARE := by
  have h := (c10_equal_timestamp_first_wins (fun _ => some 1)).2
    (Json.obj [("embed", Json.obj [("type", Json.str "CHECK_IN")]), ("from", Json.str "1")])
    (Json.obj [("embed", Json.obj [("type", Json.str "CHECK_OUT")]), ("from", Json.str "1")])
    "checkin" "checkout" 1 rfl rfl rfl rfl
  simpa using h

/-- A list of timestampless check-in events preserves the fold state
`(None, "checkin")`. -/
theorem foldlM_timestampless_checkin (pi : String → Option Int) (cands : List Json)
    (h : ∀ ev ∈ cands,
      event_kind ev = .ok (some "checkin") ∧ event_timestamp pi ev = .ok none) :
    cands.foldlM (stepEvent pi) ((none : Option Int), some "checkin") =
      .ok (none, some "checkin") := by
  induction cands with
  | nil => rfl
  | cons a l ih =>
    have ha := h a (by simp)
    have hstep : stepEvent pi (none, some "checkin") a = .ok (none, some "checkin") := by
      simp [stepEvent, ha.1, ha.2, Bind.bind, Except.bind, Pure.pure, Except.pure]
    simp only [List.foldlM_cons, hstep]
    simp only [Bind.bind, Except.bind]
    exact ih (fun ev hev => h ev (by simp [hev]))

/-- C6: an event with a determinable kind but no parseable timestamp sets
the current kind only while no timestamped event has been seen
(`latest_time is None`); once some event carries a timestamp, a
timestampless event never overrides the state; and a non-empty list of
only timestampless check-in events resolves to "At childcare". -/
theorem c6_timestampless_last_resort (pi : String → Option Int) :
    (∀ ev k k0, event_kind ev = .ok (some k) → event_timestamp pi ev = .ok none →
      stepEvent pi (none, k0) ev = .ok (none, some k)) ∧
    (∀ ev k t0 k0, event_kind ev = .ok (some k) → event_timestamp pi ev = .ok none →
      stepEvent pi (some t0, k0) ev = .ok (some t0, k0)) ∧
    (∀ cands, cands ≠ [] →
      (∀ ev ∈ cands,
        event_kind ev = .ok (some "checkin") ∧ event_timestamp pi ev = .ok none) →
      resolve_candidates pi cands = .ok STATE_AT_CHILDCARE) := by
  refine ⟨?_, ?_, ?_⟩
  · intro ev k k0 hk ht
    simp [stepEvent, hk, ht, Bind.bind, Except.bind, Pure.pure, Except.pure]
  · intro ev k t0 k0 hk ht
    simp [stepEvent, hk, ht, Bind.bind, Except.bind, Pure.pure, Except.pure]
  · intro cands hne h
    match cands, hne with
    | e :: rest, _ =>
      have he := h e (by simp)
      have hstep : stepEvent pi (none, none) e = .ok (none, some "checkin") := by
        simp [stepEvent, he.1, he.2, Bind.bind, Except.bind, Pure.pure, Except.pure]
      unfold resolve_candidates
      simp only [List.foldlM_cons, hstep]
      simp only [Bind.bind, Except.bind]
      rw [foldlM_timestampless_checkin pi rest (fun ev hev => h ev (by simp [hev]))]
      rfl

/-- C6 witness: a single check-in event with no timestamp fields resolves
to "At childcare". -/
theorem c6_witness :
    event_timestamp (fun _ => none)
      (Json.obj [("embed", Json.obj [("type", Json.str "CHECK_IN")])]) = .ok none ∧
    resolve_candidates (fun _ => none)
      [Json.obj [("embed", Json.obj [("type", Json.str "CHECK_IN")])]] =
      .ok STATE_AT_CHILDCARE := by
  refine ⟨rfl, ?_⟩
  exact (c6_timestampless_last_resort (fun _ => none)).2.2
    [Json.obj [("embed", Json.obj [("type", Json.str "CHECK_IN")])]]
    (by simp) (by intro ev hev; simp at hev; subst hev; exact ⟨rfl, rfl⟩)

/-- C2 counterexample: the claim promises "Outside childcare, not a
failure" for any response in which no event has a recognizable kind, but
a candidate whose `type` field is the number `42` has no recognizable
kind (its kind resolution raises at `t.lower()` inside `normalize_type`)
and the call yields a failure (`None`), not "Outside childcare". -/
theorem c2_counterexample :
    event_kind (Json.obj [("type", Json.num 42)]) = .error () ∧
    parsePhase (fun _ => none)
      (Json.obj [("events", Json.arr [Json.obj [("type", Json.num 42)]])]) =
      CallResult.failure ∧
    parsePhase (fun _ => none)
      (Json.obj [("events", Json.arr [Json.obj [("type", Json.num 42)]])]) ≠
      CallResult.value STATE_OUTSIDE_CHILDCARE := by
  refine ⟨rfl, rfl, ?_⟩
  intro h
  exact CallResult.noConfusion h

/-- C2 (amended): a falsy response body, an empty flattened candidate
list, and more generally any candidate list on which kind determination
completes everywhere yielding no kind, give "Outside childcare"; only a
candidate whose kind resolution itself raises turns the poll into a
failure. -/
theorem c2_empty_or_unrecognized_defaults_outside (pi : String → Option Int)
    (data : Json) :
    (truthy data = false → parsePhase pi data = .value STATE_OUTSIDE_CHILDCARE) ∧
    (∀ cands, collect_events data = .ok cands →
      (∀ ev ∈ cands, event_kind ev = .ok none) →
      parsePhase pi data = .value STATE_OUTSIDE_CHILDCARE) := by
  constructor
  · intro h
    simp [parsePhase, h]
  · intro cands hc hk
    by_cases ht : truthy data
    · have hfold := foldlM_all_skipped pi cands hk (none, none)
      simp [parsePhase, ht, resolve_data, hc, resolve_candidates, hfold,
        Bind.bind, Except.bind, Pure.pure, Except.pure]
    · simp [parsePhase, ht]

/-- C2 witness: a response with one unrecognizable-but-dict event (a
title that matches no phrase) resolves to "Outside childcare". -/
theorem c2_witness :
    collect_events (Json.obj [("events", Json.arr [Json.obj [("title", Json.str "lunch")]])]) =
      .ok [Json.obj [("title", Json.str "lunch")]] ∧
    parsePhase (fun _ => none)
      (Json.obj [("events", Json.arr [Json.obj [("title", Json.str "lunch")]])]) =
      .value STATE_OUTSIDE_CHILDCARE := by
  refine ⟨rfl, ?_⟩
  exact (c2_empty_or_unrecognized_defaults_outside (fun _ => none)
    (Json.obj [("events", Json.arr [Json.obj [("title", Json.str "lunch")]])])).2
    [Json.obj [("title", Json.str "lunch")]] rfl
    (by intro ev hev; simp at hev; subst hev; rfl)

/-- Shape of the `try` block when the first calendar response is 401:
one re-authentication, then at most one retried query. -/
theorem runQueryPhase_401 (pi : String → Option Int) (auths : Nat → AuthResp)
    (cals : Nat → CalResp) (aUsed : Nat) (body : Json)
    (h401 : cals 0 = CalResp.ok 401 body) :
    runQueryPhase pi auths cals aUsed =
      match authenticate (auths aUsed) with
      | .success _ =>
        (match cals 1 with
          | .netErr => (.failure, aUsed + 1, 2)
          | .ok s2 b2 =>
            if 400 ≤ s2 then (.failure, aUsed + 1, 2)
            else (parsePhase pi b2, aUsed + 1, 2))
      | .failure => (.failure, aUsed + 1, 1)
      | .raised => (.failure, aUsed + 1, 1) := by
  unfold runQueryPhase
  rw [h401]
  simp

/-- C3: when the first calendar query returns 401 (with a token in hand),
exactly one re-authentication is attempted and at most one retried query
is issued (exactly one when the re-authentication succeeds); a failed or
crashing re-authentication returns `None` with no retry, and a second 401
on the retry also returns `None` — the call never loops. -/
theorem c3_single_reauth_on_401 (pi : String → Option Int) (token : Option String)
    (auths : Nat → AuthResp) (cals : Nat → CalResp) (body : Json)
    (htok : tokenTruthy token = true) (h401 : cals 0 = CalResp.ok 401 body) :
    (get_child_status pi token auths cals).2.1 = 1 ∧
    (get_child_status pi token auths cals).2.2 ≤ 2 ∧
    (∀ t, authenticate (auths 0) = .success t →
      (get_child_status pi token auths cals).2.2 = 2) ∧
    (authenticate (auths 0) = .failure →
      (get_child_status pi token auths cals).1 = .failure ∧
      (get_child_status pi token auths cals).2.2 = 1) ∧
    (authenticate (auths 0) = .raised →
      (get_child_status pi token auths cals).1 = .failure ∧
      (get_child_status pi token auths cals).2.2 = 1) ∧
    (∀ t b2, authenticate (auths 0) = .success t → cals 1 = CalResp.ok 401 b2 →
      (get_child_status pi token auths cals).1 = .failure) := by
  have hg : get_child_status pi token auths cals = runQueryPhase pi auths cals 0 := by
    simp [get_child_status, htok]
  simp only [hg, runQueryPhase_401 pi auths cals 0 body h401]
  cases hA : authenticate (auths 0) with
  | success t =>
    cases hc : cals 1 with
    | netErr => simp
    | ok s2 b2 =>
      by_cases h4 : 400 ≤ s2
      · simp [h4]
      · simp [h4]
        intro h5
        exact absurd (by omega : 400 ≤ s2) h4
  | failure => simp
  | raised => simp

/-- C3 witness: a 401 first response with a failing re-authentication
gives one auth attempt, one query, and no result. -/
theorem c3_witness :
    tokenTruthy (some "t") = true ∧
    (get_child_status (fun _ => none) (some "t") (fun _ => AuthResp.netErr)
      (fun _ => CalResp.ok 401 Json.null)).2.1 = 1 ∧
    (get_child_status (fun _ => none) (some "t") (fun _ => AuthResp.netErr)
      (fun _ => CalResp.ok 401 Json.null)).1 = CallResult.failure := by
  refine ⟨rfl, ?_, ?_⟩
  · exact (c3_single_reauth_on_401 (fun _ => none) (some "t") (fun _ => AuthResp.netErr)
      (fun _ => CalResp.ok 401 Json.null) Json.null rfl rfl).1
  · exact ((c3_single_reauth_on_401 (fun _ => none) (some "t") (fun _ => AuthResp.netErr)
      (fun _ => CalResp.ok 401 Json.null) Json.null rfl rfl).2.2.2.1 rfl).1

/-- The parse of a received body never lets an exception escape: a falsy
body or a successful parse yields a status, and a parse exception is
caught into a `None` result. -/
theorem parsePhase_ne_raised (pi : String → Option Int) (data : Json) :
    parsePhase pi data ≠ CallResult.raised := by
  unfold parsePhase
  by_cases h : truthy data
  · simp only [h, if_true]
    cases resolve_data pi data <;> simp
  · simp [h]

/-- Nothing inside the `try` block of `get_child_status` escapes as an
exception. -/
theorem runQueryPhase_ne_raised (pi : String → Option Int) (auths : Nat → AuthResp)
    (cals : Nat → CalResp) (aUsed : Nat) :
    (runQueryPhase pi auths cals aUsed).1 ≠ CallResult.raised := by
  unfold runQueryPhase
  cases cals 0 with
  | netErr => simp
  | ok s b =>
    by_cases h1 : s = 401
    · simp only [h1, if_pos rfl]
      cases authenticate (auths aUsed) with
      | success t =>
        cases cals 1 with
        | netErr => simp
        | ok s2 b2 =>
          by_cases h2 : 400 ≤ s2
          · simp [h2]
          · simp [h2, parsePhase_ne_raised]
      | failure => simp
      | raised => simp
    · simp only [if_neg h1]
      by_cases h2 : 400 ≤ s
      · simp [h2]
      · simp [h2, parsePhase_ne_raised]

/-- C5 (amended): every exception arising inside the `try` block of
`get_child_status` (the calendar queries, the in-`try` re-authentication
and all response parsing) is caught and the call returns `None`; but the
initial authentication of line 92 runs before the `try`, so the only way
the call raises is that no token was held and that initial
`authenticate()` itself raised. -/
theorem c5_only_initial_auth_raises (pi : String → Option Int) (token : Option String)
    (auths : Nat → AuthResp) (cals : Nat → CalResp) :
    (tokenTruthy token = true →
      (get_child_status pi token auths cals).1 ≠ CallResult.raised) ∧
    ((get_child_status pi token auths cals).1 = CallResult.raised →
      tokenTruthy token = false ∧ authenticate (auths 0) = AuthOutcome.raised) := by
  constructor
  · intro htok
    simp only [get_child_status, htok, if_true]
    exact runQueryPhase_ne_raised pi auths cals 0
  · intro hr
    by_cases htok : tokenTruthy token = true
    · exfalso
      simp only [get_child_status, htok, if_true] at hr
      exact runQueryPhase_ne_raised pi auths cals 0 hr
    · have htok2 : tokenTruthy token = false := by simpa using htok
      refine ⟨htok2, ?_⟩
      simp only [get_child_status, htok2, Bool.false_eq_true, if_false] at hr
      cases hA : authenticate (auths 0) with
      | success t =>
        simp only [hA] at hr
        exact absurd hr (runQueryPhase_ne_raised pi auths cals 1)
      | failure => simp only [hA] at hr; cases hr
      | raised => rfl

/-- C5 counterexample: with no token held and a 200 authentication
response whose body is a JSON object with a null `data` field, the
initial `authenticate()` raises `AttributeError` (`None.get("me")`)
outside the `try` block, and `get_child_status` propagates the exception
instead of returning `None`. -/
theorem c5_counterexample :
    (get_child_status (fun _ => none) none
      (fun _ => AuthResp.ok 200 (Json.obj [("data", Json.null)]))
      (fun _ => CalResp.netErr)).1 = CallResult.raised ∧
    (get_child_status (fun _ => none) none
      (fun _ => AuthResp.ok 200 (Json.obj [("data", Json.null)]))
      (fun _ => CalResp.netErr)).1 ≠ CallResult.failure := by
  refine ⟨rfl, ?_⟩
  intro h
  exact CallResult.noConfusion h

/-- C5 witness: with a token in hand no input makes the call raise. -/
theorem c5_witness :
    tokenTruthy (some "t") = true ∧
    (get_child_status (fun _ => none) (some "t") (fun _ => AuthResp.netErr)
      (fun _ => CalResp.netErr)).1 ≠ CallResult.raised :=
  ⟨rfl, (c5_only_initial_auth_raises (fun _ => none) (some "t")
    (fun _ => AuthResp.netErr) (fun _ => CalResp.netErr)).1 rfl⟩

/-- C8 (amended): `authenticate` returns `False` without raising on a
transport error, on an HTTP error status (≥ 400, which is what
`raise_for_status` raises on), and on a body whose token-extraction chain
completes but yields no truthy token (absent keys fall back to `{}`
defaults); it returns `True` storing the token exactly when the chain
yields a truthy token; but when the chain itself raises (an intermediate
field explicitly `null` or otherwise a non-dict), the `AttributeError` is
not an `aiohttp.ClientError` and propagates. -/
theorem c8_authenticate_outcomes (s : Nat) (b : Json) (tok : Json) :
    authenticate AuthResp.netErr = .failure ∧
    (400 ≤ s → authenticate (AuthResp.ok s b) = .failure) ∧
    (s < 400 → authChain b = .error () → authenticate (AuthResp.ok s b) = .raised) ∧
    (s < 400 → authChain b = .ok tok → truthy tok = false →
      authenticate (AuthResp.ok s b) = .failure) ∧
    (s < 400 → authChain b = .ok tok → truthy tok = true →
      authenticate (AuthResp.ok s b) = .success tok) := by
  refine ⟨rfl, ?_, ?_, ?_, ?_⟩
  · intro h
    simp [authenticate, h]
  · intro h hc
    have h2 : ¬ 400 ≤ s := by omega
    simp [authenticate, h2, hc]
  · intro h hc ht
    have h2 : ¬ 400 ≤ s := by omega
    simp [authenticate, h2, hc, ht]
  · intro h hc ht
    have h2 : ¬ 400 ≤ s := by omega
    simp [authenticate, h2, hc, ht]

/-- C8 counterexample: a 2xx response whose well-formed JSON body is
`{"data": null}` lacks an access token, yet `authenticate` raises
(`None.get("me")` is an `AttributeError`, which `except
aiohttp.ClientError` does not catch) instead of returning `False`. -/
theorem c8_counterexample :
    authenticate (AuthResp.ok 200 (Json.obj [("data", Json.null)])) = AuthOutcome.raised ∧
    authenticate (AuthResp.ok 200 (Json.obj [("data", Json.null)])) ≠ AuthOutcome.failure := by
  refine ⟨rfl, ?_⟩
  intro h
  exact AuthOutcome.noConfusion h

/-- C8 witness: a body carrying a token authenticates successfully and
stores that token. -/
theorem c8_witness :
    authChain (Json.obj [("data", Json.obj [("me", Json.obj [("authenticateWithPassword",
      Json.obj [("accessToken", Json.str "tk")])])])]) = .ok (Json.str "tk") ∧
    authenticate (AuthResp.ok 200 (Json.obj [("data", Json.obj [("me",
      Json.obj [("authenticateWithPassword",
        Json.obj [("accessToken", Json.str "tk")])])])])) =
      AuthOutcome.success (Json.str "tk") := by
  refine ⟨rfl, ?_⟩
  exact (c8_authenticate_outcomes 200
    (Json.obj [("data", Json.obj [("me", Json.obj [("authenticateWithPassword",
      Json.obj [("accessToken", Json.str "tk")])])])])
    (Json.str "tk")).2.2.2.2 (by omega) rfl rfl
